import Mathlib

/-!
Verification of the segmentation & aggregation pipeline of the
Demographics & Churn Prediction dashboard (`app.py`).

The embedding models the pandas pipeline of `load_data` and the
aggregate computations over the loaded frame.  A raw CSV row is
modelled after the numeric coercion of
`pd.to_numeric(..., errors='coerce')`: every coercible numeric column
is an `Option ℚ` (`none` standing for NaN), `CustomerID` is an
`Option Int` (`none` standing for a value on which `astype(int)`
raises), and `Churn` / `Predicted_Churn` keep their read value as `ℚ`.
-/

structure RawRow where
  customerID : Option Int
  country : String
  totalPrice : Option ℚ
  unitPrice : Option ℚ
  quantity : Option ℚ
  recency : Option ℚ
  churn : ℚ
  predictedChurn : ℚ
deriving DecidableEq

structure NormRow where
  customerID : Int
  country : String
  totalPrice : Option ℚ
  unitPrice : Option ℚ
  quantity : Option ℚ
  recency : ℚ
  churn : ℚ
  predictedChurn : ℚ
  gender : Option String
  ageGroup : String
  incomeGroup : Option String
  creditScore : Option String
  riskCategory : Option String
deriving DecidableEq

/-- `df['Gender'] = df['Churn'].map({1: 'Male', 0: 'Female'})` (app.py line 33).
`Series.map` yields NaN (`none`) for keys outside the mapping. -/
def genderOf (c : ℚ) : Option String :=
  if c = 1 then some "Male" else if c = 0 then some "Female" else none

/-- `df['Risk_Category'] = df['Predicted_Churn'].map({1: 'High Risk', 0: 'Low Risk'})`
(app.py line 47). -/
def riskOf (p : ℚ) : Option String :=
  if p = 1 then some "High Risk" else if p = 0 then some "Low Risk" else none

/-- `pd.cut(df['Recency'], bins=[0,60,120,180,240,300,max_recency+1],
labels=['18-30',...,'>71'], include_lowest=True)` (app.py lines 36-38).
`pd.cut` defaults to `right=True`, so the intervals are `(lo, hi]`;
`include_lowest=True` closes the first interval at 0. -/
def ageGroupOf (maxR v : ℚ) : Option String :=
  if 0 ≤ v ∧ v ≤ 60 then some "18-30"
  else if 60 < v ∧ v ≤ 120 then some "31-40"
  else if 120 < v ∧ v ≤ 180 then some "41-50"
  else if 180 < v ∧ v ≤ 240 then some "51-60"
  else if 240 < v ∧ v ≤ 300 then some "61-70"
  else if 300 < v ∧ v ≤ maxR + 1 then some ">71"
  else none

/-- The bucketing rule as the specification words it for comparison with
`ageGroupOf`: same edges, but "left-inclusive, right-exclusive except the
first bucket which includes 0". -/
def ageGroupSpecWorded (maxR v : ℚ) : Option String :=
  if 0 ≤ v ∧ v < 60 then some "18-30"
  else if 60 ≤ v ∧ v < 120 then some "31-40"
  else if 120 ≤ v ∧ v < 180 then some "41-50"
  else if 180 ≤ v ∧ v < 240 then some "51-60"
  else if 240 ≤ v ∧ v < 300 then some "61-70"
  else if 300 ≤ v ∧ v < maxR + 1 then some ">71"
  else none

/-- Interval lookup for `pd.cut` with `bins = np.linspace(lo, hi, 6)` and
`right=True`: six edges `lo + k*(hi-lo)/5`, intervals `(edge k, edge (k+1)]`,
with the leftmost edge lowered by `adj` (pandas lowers `bins[0]` by 0.1% of
the range so the minimum value falls inside the first interval). -/
def cutBuckets (lo hi adj v : ℚ) : Option Nat :=
  let w := (hi - lo) / 5
  if lo - adj < v ∧ v ≤ lo + w then some 0
  else if lo + w < v ∧ v ≤ lo + 2*w then some 1
  else if lo + 2*w < v ∧ v ≤ lo + 3*w then some 2
  else if lo + 3*w < v ∧ v ≤ lo + 4*w then some 3
  else if lo + 4*w < v ∧ v ≤ hi then some 4
  else none

/-- `pd.cut(x, bins=5)` bucket index for value `v`, where `mn`/`mx` are the
min/max of the column: pandas takes `linspace(mn, mx, 6)` and, when
`mn ≠ mx`, lowers the first edge by `(mx-mn)*0.001`; when `mn = mx` it
instead widens both end points by 0.1% (or by 0.001 when the end point
is 0) before the linspace. -/
def cut5 (mn mx v : ℚ) : Option Nat :=
  if mn = mx then
    cutBuckets (mn - (if mn = 0 then 1/1000 else |mn| / 1000))
               (mx + (if mx = 0 then 1/1000 else |mx| / 1000)) 0 v
  else
    cutBuckets mn mx ((mx - mn) / 1000) v

/-- Labels of `pd.cut(df['TotalPrice'], bins=5, labels=[...])` (app.py lines 41-42). -/
def incomeLabel (k : Nat) : String :=
  match k with
  | 0 => "Low Income"
  | 1 => "Lower Middle"
  | 2 => "Middle"
  | 3 => "Upper Middle"
  | _ => "High Income"

/-- Labels of `pd.cut(df['Quantity'], bins=5, labels=[...])` (app.py lines 44-45). -/
def creditLabel (k : Nat) : String :=
  match k with
  | 0 => "Poor"
  | 1 => "Fair"
  | 2 => "Good"
  | 3 => "Very Good"
  | _ => "Excellent"

/-- Minimum of a list of rationals (NaN-free, mirroring `np.nanmin` applied
to the present values of a column); `none` on the empty list. -/
def listMin : List ℚ → Option ℚ
  | [] => none
  | x :: xs => some (match listMin xs with | none => x | some m => min x m)

/-- Maximum of a list of rationals, `none` on the empty list
(`df['Recency'].max()` skips NaN, so it is applied to present values). -/
def listMax : List ℚ → Option ℚ
  | [] => none
  | x :: xs => some (match listMax xs with | none => x | some m => max x m)

/-- `df = df.dropna(subset=['Recency'])` (app.py line 30): keep the rows whose
Recency coerced, paired with the coerced value. -/
def dropnaRecency (raws : List RawRow) : List (RawRow × ℚ) :=
  raws.filterMap (fun w => w.recency.map (fun v => (w, v)))

/-- Age-group assignment followed by `df = df.dropna(subset=['Age_Group'])`
(app.py lines 38-39): rows whose Recency falls outside every bucket are
dropped. -/
def withAge (raws : List RawRow) (maxR : ℚ) : List (RawRow × ℚ × String) :=
  (dropnaRecency raws).filterMap
    (fun p => (ageGroupOf maxR p.2).map (fun a => (p.1, p.2, a)))

def tpMinWA (wa : List (RawRow × ℚ × String)) : Option ℚ :=
  listMin (wa.filterMap (fun x => x.1.totalPrice))

def tpMaxWA (wa : List (RawRow × ℚ × String)) : Option ℚ :=
  listMax (wa.filterMap (fun x => x.1.totalPrice))

def qMinWA (wa : List (RawRow × ℚ × String)) : Option ℚ :=
  listMin (wa.filterMap (fun x => x.1.quantity))

def qMaxWA (wa : List (RawRow × ℚ × String)) : Option ℚ :=
  listMax (wa.filterMap (fun x => x.1.quantity))

/-- Assembly of one normalized row: the derived proxy columns of app.py
lines 33, 38, 41-47 attached to the surviving raw row. -/
def normalizeRow (mnt mxt mnq mxq : ℚ) (x : RawRow × ℚ × String) : NormRow :=
  { customerID := x.1.customerID.getD 0
    country := x.1.country
    totalPrice := x.1.totalPrice
    unitPrice := x.1.unitPrice
    quantity := x.1.quantity
    recency := x.2.1
    churn := x.1.churn
    predictedChurn := x.1.predictedChurn
    gender := genderOf x.1.churn
    ageGroup := x.2.2
    incomeGroup := (x.1.totalPrice.bind (cut5 mnt mxt)).map incomeLabel
    creditScore := (x.1.quantity.bind (cut5 mnq mxq)).map creditLabel
    riskCategory := riskOf x.1.predictedChurn }

/-- `load_data` (app.py lines 22-49).  Failure modes of the pandas code are
surfaced as `Except.error`:
* `df['CustomerID'].astype(int)` raises when any value of the column fails
  integer coercion (checked before the Recency dropna, as in the source);
* `pd.cut` on Recency raises when the bins are not strictly increasing,
  which happens when the frame is empty after the dropna (`max()` is NaN)
  or when `max_recency + 1 ≤ 300`;
* `pd.cut(..., bins=5)` on TotalPrice / Quantity raises when the column has
  no present value (empty frame or all-NaN column gives NaN bin edges). -/
def load_data (raws : List RawRow) : Except String (List NormRow) :=
  if raws.any (fun w => w.customerID = none) then
    .error "MalformedRecord: CustomerID failed integer coercion"
  else
    match listMax ((dropnaRecency raws).map (fun p => p.2)) with
    | none => .error "ValueError: bins must increase monotonically"
    | some maxR =>
      if 300 < maxR + 1 then
        match tpMinWA (withAge raws maxR), tpMaxWA (withAge raws maxR),
              qMinWA (withAge raws maxR), qMaxWA (withAge raws maxR) with
        | some mnt, some mxt, some mnq, some mxq =>
            .ok ((withAge raws maxR).map (normalizeRow mnt mxt mnq mxq))
        | _, _, _, _ => .error "ValueError: cannot cut an empty column"
      else .error "ValueError: bins must increase monotonically"

/-! ### Aggregator (app.py lines 54-60, 116-123, 134, 143, 152, 162) -/

/-- `total_clients = len(df)` (app.py line 54). -/
def total_clients (t : List NormRow) : Nat := t.length

/-- `male_count = df[df['Gender'] == 'Male'].shape[0]` (app.py line 55). -/
def male_count (t : List NormRow) : Nat :=
  (t.filter (fun r => r.gender = some "Male")).length

/-- `female_count = df[df['Gender'] == 'Female'].shape[0]` (app.py line 56). -/
def female_count (t : List NormRow) : Nat :=
  (t.filter (fun r => r.gender = some "Female")).length

/-- `predicted_high_risk = df['Predicted_Churn'].sum()` (app.py line 59). -/
def predicted_high_risk (t : List NormRow) : ℚ :=
  (t.map (fun r => r.predictedChurn)).sum

/-- Numpy scalar division: dividing by zero does not yield a number
(`0/0` is NaN, `x/0` is signed infinity, both modelled as `none`). -/
def npDiv (a b : ℚ) : Option ℚ :=
  if b = 0 then none else some (a / b)

/-- `predicted_churn_rate = (predicted_high_risk / total_clients) * 100`
(app.py line 60). -/
def predicted_churn_rate (t : List NormRow) : Option ℚ :=
  (npDiv (predicted_high_risk t) (total_clients t)).map (fun x => x * 100)

/-- Column index of `pd.crosstab(df['Age_Group'], df['Gender'])` (app.py
line 116): the distinct Gender values present, rows with NaN Gender being
dropped by the crosstab.  (pandas sorts this index; since the only possible
Gender values are "Female" and "Male" the dedup order is only ever
normalized afterwards by the reorder of lines 118-123, so sortedness is
immaterial here.) -/
def crosstabColumnsOf (t : List NormRow) : List String :=
  (t.filterMap (fun r => r.gender)).dedup

/-- The reorder of app.py lines 117-123: force Female before Male when both
genders occur, else keep the single occurring one. -/
def age_gender_columns (t : List NormRow) : List String :=
  let cols := crosstabColumnsOf t
  if "Female" ∈ cols ∧ "Male" ∈ cols then ["Female", "Male"]
  else if "Female" ∈ cols then ["Female"]
  else if "Male" ∈ cols then ["Male"]
  else cols

/-- Key of one row in `pd.crosstab(df['Age_Group'], df['Gender'])`. -/
def crosstabKey (r : NormRow) : String × Option String := (r.ageGroup, r.gender)

/-- Rows participating in the crosstab: `pd.crosstab` drops rows whose
Gender is NaN. -/
def crosstabValid (t : List NormRow) : List NormRow :=
  t.filter (fun r => r.gender.isSome)

/-- The (Age_Group, Gender) cells that occur in the crosstab. -/
def crosstabKeys (t : List NormRow) : List (String × Option String) :=
  ((crosstabValid t).map crosstabKey).dedup

/-- Count held by one cell of the crosstab. -/
def crosstabCount (t : List NormRow) (k : String × Option String) : Nat :=
  ((crosstabValid t).filter (fun r => crosstabKey r = k)).length

/-- Sum of all per-cell counts of the Age_Group × Gender crosstab. -/
def crosstabTotal (t : List NormRow) : Nat :=
  ((crosstabKeys t).map (fun k => crosstabCount t k)).sum

/-- The fixed category universe of the Age_Group categorical column: the
`labels` handed to `pd.cut` on line 37. -/
def ageCategories : List String :=
  ["18-30", "31-40", "41-50", "51-60", "61-70", ">71"]

/-- The fixed category universe of the Income_Group categorical column
(line 42). -/
def incomeCategories : List String :=
  ["Low Income", "Lower Middle", "Middle", "Upper Middle", "High Income"]

/-- The fixed category universe of the Credit_Score categorical column
(line 45). -/
def creditCategories : List String :=
  ["Poor", "Fair", "Good", "Very Good", "Excellent"]

/-- `.mean() * 100` of a group's Predicted_Churn values; the mean of an
empty group is NaN (`none`). -/
def groupRate (flagged : List ℚ) : Option ℚ :=
  if flagged.length = 0 then none
  else some ((flagged.sum / (flagged.length : ℚ)) * 100)

/-- `churn_by_age = df.groupby('Age_Group')['Predicted_Churn'].mean() * 100`
(app.py line 152).  Age_Group is a categorical column, and
`groupby` on a categorical (default `observed=False`) lists every category
of the dtype, including the empty ones, whose mean is NaN. -/
def churn_by_age (t : List NormRow) : List (String × Option ℚ) :=
  ageCategories.map
    (fun a => (a, groupRate ((t.filter (fun r => r.ageGroup = a)).map
                              (fun r => r.predictedChurn))))

/-- `churn_by_income = df.groupby('Income_Group')['Predicted_Churn'].mean() * 100`
(app.py line 162); same categorical-groupby semantics, rows with NaN
Income_Group belonging to no group. -/
def churn_by_income (t : List NormRow) : List (String × Option ℚ) :=
  incomeCategories.map
    (fun c => (c, groupRate ((t.filter (fun r => r.incomeGroup = some c)).map
                              (fun r => r.predictedChurn))))

/-- Per-category counts of `df['Income_Group'].value_counts()` (app.py
line 134); `value_counts` skips NaN, a categorical's `value_counts` covers
every category of the dtype.  (pandas orders the result by descending
count; the claims below only use the multiset of counts, so the fixed
category order is used.) -/
def income_vals (t : List NormRow) : List (String × Nat) :=
  incomeCategories.map
    (fun c => (c, (t.filter (fun r => r.incomeGroup = some c)).length))

/-- Per-category counts of `df['Credit_Score'].value_counts()` (app.py
line 143). -/
def credit_vals (t : List NormRow) : List (String × Nat) :=
  creditCategories.map
    (fun c => (c, (t.filter (fun r => r.creditScore = some c)).length))

/-- Total mass of the Income_Group distribution. -/
def income_vals_total (t : List NormRow) : Nat :=
  ((income_vals t).map (fun p => p.2)).sum

/-- Total mass of the Credit_Score distribution. -/
def credit_vals_total (t : List NormRow) : Nat :=
  ((credit_vals t).map (fun p => p.2)).sum

/-- Min over the TotalPrice column of the loaded table (present values). -/
def tpMinOf (t : List NormRow) : Option ℚ :=
  listMin (t.filterMap (fun r => r.totalPrice))

def tpMaxOf (t : List NormRow) : Option ℚ :=
  listMax (t.filterMap (fun r => r.totalPrice))

def qMinOf (t : List NormRow) : Option ℚ :=
  listMin (t.filterMap (fun r => r.quantity))

def qMaxOf (t : List NormRow) : Option ℚ :=
  listMax (t.filterMap (fun r => r.quantity))

/-! ### Concrete tables used to instantiate the claims -/

def mkRaw (cid : Option Int) (tp q rec : Option ℚ) (ch pc : ℚ) : RawRow :=
  { customerID := cid, country := "UK", totalPrice := tp, unitPrice := some 1,
    quantity := q, recency := rec, churn := ch, predictedChurn := pc }

/-- The table produced by a successful load (`[]` is never looked at on the
error side). -/
def okTable (e : Except String (List NormRow)) : List NormRow :=
  match e with | .ok t => t | .error _ => []

/-- The spec's concrete scenario: Recency `[30, 90, 150, 310]`,
Predicted_Churn `[1, 1, 0, 0]`, both genders present. -/
def scenarioRaws : List RawRow :=
  [ mkRaw (some 1) (some 10) (some 1) (some 30) 0 1,
    mkRaw (some 2) (some 20) (some 2) (some 90) 1 1,
    mkRaw (some 3) (some 30) (some 3) (some 150) 0 0,
    mkRaw (some 4) (some 40) (some 4) (some 310) 1 0 ]

def scenarioTable : List NormRow := okTable (load_data scenarioRaws)

/-- Rows exercising the bucket edge: one customer with Recency exactly 60,
one with Recency 310 (so that `max(Recency) = 310` as in the spec's
scenario). -/
def edgeRaws : List RawRow :=
  [ mkRaw (some 1) (some 10) (some 1) (some 60) 0 1,
    mkRaw (some 2) (some 20) (some 2) (some 310) 1 0 ]

def edgeTable : List NormRow := okTable (load_data edgeRaws)

/-- Rows where one customer's TotalPrice and Quantity failed numeric
coercion (NaN) while its Recency is fine. -/
def gapRaws : List RawRow :=
  [ mkRaw (some 1) (some 10) (some 1) (some 30) 0 1,
    mkRaw (some 2) (some 20) (some 2) (some 310) 1 0,
    mkRaw (some 3) none none (some 100) 1 1 ]

def gapTable : List NormRow := okTable (load_data gapRaws)

/-- Rows among which one CustomerID failed integer coercion. -/
def badIdRaws : List RawRow :=
  [ mkRaw (some 1) (some 10) (some 1) (some 30) 0 1,
    mkRaw none (some 20) (some 2) (some 310) 1 0 ]

/-! ### Helper lemmas -/

theorem listMin_eq_none {l : List ℚ} (h : listMin l = none) : l = [] := by
  cases l with
  | nil => rfl
  | cons x xs => simp [listMin] at h

theorem listMax_eq_none {l : List ℚ} (h : listMax l = none) : l = [] := by
  cases l with
  | nil => rfl
  | cons x xs => simp [listMax] at h

theorem listMin_le {l : List ℚ} {m : ℚ} (h : listMin l = some m) :
    ∀ v ∈ l, m ≤ v := by
  induction l generalizing m with
  | nil => simp [listMin] at h
  | cons x xs ih =>
    intro v hv
    rw [listMin] at h
    injection h with h
    cases hmx : listMin xs with
    | none =>
      have hxs : xs = [] := listMin_eq_none hmx
      subst hxs
      rw [hmx] at h
      subst h
      simp only [List.mem_singleton] at hv
      subst hv
      exact le_refl v
    | some mx =>
      rw [hmx] at h
      subst h
      rcases List.mem_cons.mp hv with rfl | hvx
      · exact min_le_left _ _
      · exact le_trans (min_le_right _ _) (ih hmx v hvx)

theorem listMax_ge {l : List ℚ} {m : ℚ} (h : listMax l = some m) :
    ∀ v ∈ l, v ≤ m := by
  induction l generalizing m with
  | nil => simp [listMax] at h
  | cons x xs ih =>
    intro v hv
    rw [listMax] at h
    injection h with h
    cases hmx : listMax xs with
    | none =>
      have hxs : xs = [] := listMax_eq_none hmx
      subst hxs
      rw [hmx] at h
      subst h
      simp only [List.mem_singleton] at hv
      subst hv
      exact le_refl v
    | some mx =>
      rw [hmx] at h
      subst h
      rcases List.mem_cons.mp hv with rfl | hvx
      · exact le_max_left _ _
      · exact le_trans (ih hmx v hvx) (le_max_right _ _)

theorem length_filter_split {α : Type} (p : α → Bool) (l : List α) :
    (l.filter p).length + (l.filter (fun x => !(p x))).length = l.length := by
  induction l with
  | nil => rfl
  | cons x xs ih =>
    cases hx : p x <;> simp [List.filter_cons, hx] <;> omega

theorem sum_counts_eq_length {α K : Type} [DecidableEq K] (f : α → K) :
    ∀ (ks : List K) (l : List α), ks.Nodup → (∀ x ∈ l, f x ∈ ks) →
      ((ks.map (fun k => (l.filter (fun x => f x = k)).length)).sum = l.length) := by
  intro ks
  induction ks with
  | nil =>
    intro l _ hcov
    have hl : l = [] := List.eq_nil_iff_forall_not_mem.mpr
      (fun x hx => by simpa using hcov x hx)
    subst hl
    rfl
  | cons k ks ih =>
    intro l hnd hcov
    simp only [List.map_cons, List.sum_cons]
    have hnd' := List.nodup_cons.mp hnd
    have hmapeq : ∀ k' ∈ ks,
        (l.filter (fun x => f x = k')).length =
        ((l.filter (fun x => !(decide (f x = k)))).filter (fun x => f x = k')).length := by
      intro k' hk'
      have hkk : k' ≠ k := fun e => hnd'.1 (e ▸ hk')
      rw [List.filter_filter]
      congr 1
      apply List.filter_congr
      intro x _
      by_cases hfx : f x = k'
      · simp [hfx, hkk]
      · simp [hfx]
    rw [List.map_congr_left hmapeq]
    rw [ih (l.filter (fun x => !(decide (f x = k)))) hnd'.2 ?_]
    · exact length_filter_split (fun x => decide (f x = k)) l
    · intro x hx
      have hx' := List.mem_filter.mp hx
      have := hcov x hx'.1
      simp only [List.mem_cons] at this
      rcases this with he | hm
      · exfalso
        simp [he] at hx'
      · exact hm

theorem load_data_shape {raws : List RawRow} {t : List NormRow}
    (h : load_data raws = .ok t) :
    ∃ maxR mnt mxt mnq mxq,
      listMax ((dropnaRecency raws).map (fun p => p.2)) = some maxR ∧
      300 < maxR + 1 ∧
      (∀ w ∈ raws, w.customerID ≠ none) ∧
      tpMinWA (withAge raws maxR) = some mnt ∧
      tpMaxWA (withAge raws maxR) = some mxt ∧
      qMinWA (withAge raws maxR) = some mnq ∧
      qMaxWA (withAge raws maxR) = some mxq ∧
      t = (withAge raws maxR).map (normalizeRow mnt mxt mnq mxq) := by
  unfold load_data at h
  split at h
  · exact Except.noConfusion h
  · split at h
    · exact Except.noConfusion h
    · split at h
      · split at h
        · injection h with h
          rename_i hany x4 maxR hmax h300 x3 x2 x1 x0 mnt mxt mnq mxq hmnt hmxt hmnq hmxq
          refine ⟨maxR, mnt, mxt, mnq, mxq, hmax, h300, ?_, hmnt, hmxt, hmnq, hmxq, h.symm⟩
          intro w hw hwnone
          exact hany (List.any_eq_true.mpr ⟨w, hw, by simp [hwnone]⟩)
        · exact Except.noConfusion h
      · exact Except.noConfusion h

theorem tpMinOf_map (mnt mxt mnq mxq : ℚ) (wa : List (RawRow × ℚ × String)) :
    tpMinOf (wa.map (normalizeRow mnt mxt mnq mxq)) = tpMinWA wa := by
  unfold tpMinOf tpMinWA
  rw [List.filterMap_map]
  rfl

theorem tpMaxOf_map (mnt mxt mnq mxq : ℚ) (wa : List (RawRow × ℚ × String)) :
    tpMaxOf (wa.map (normalizeRow mnt mxt mnq mxq)) = tpMaxWA wa := by
  unfold tpMaxOf tpMaxWA
  rw [List.filterMap_map]
  rfl

theorem qMinOf_map (mnt mxt mnq mxq : ℚ) (wa : List (RawRow × ℚ × String)) :
    qMinOf (wa.map (normalizeRow mnt mxt mnq mxq)) = qMinWA wa := by
  unfold qMinOf qMinWA
  rw [List.filterMap_map]
  rfl

theorem qMaxOf_map (mnt mxt mnq mxq : ℚ) (wa : List (RawRow × ℚ × String)) :
    qMaxOf (wa.map (normalizeRow mnt mxt mnq mxq)) = qMaxWA wa := by
  unfold qMaxOf qMaxWA
  rw [List.filterMap_map]
  rfl

theorem ageGroupOf_mem {maxR v : ℚ} {a : String} (h : ageGroupOf maxR v = some a) :
    a ∈ ageCategories := by
  unfold ageGroupOf at h
  split_ifs at h <;> (injection h with h; subst h; simp [ageCategories])

theorem incomeLabel_mem (k : Nat) : incomeLabel k ∈ incomeCategories := by
  unfold incomeLabel
  split <;> simp [incomeCategories]

theorem creditLabel_mem (k : Nat) : creditLabel k ∈ creditCategories := by
  unfold creditLabel
  split <;> simp [creditCategories]

/-- Per-row invariants of a successfully loaded table: every row carries the
proxy columns computed by `load_data`, with the income/credit bins cut at
the min/max of the corresponding column over the whole loaded table. -/
theorem load_data_rows {raws : List RawRow} {t : List NormRow}
    (h : load_data raws = .ok t) :
    ∃ mnt mxt mnq mxq,
      tpMinOf t = some mnt ∧ tpMaxOf t = some mxt ∧
      qMinOf t = some mnq ∧ qMaxOf t = some mxq ∧
      ∀ r ∈ t,
        r.gender = genderOf r.churn ∧
        r.riskCategory = riskOf r.predictedChurn ∧
        r.incomeGroup = (r.totalPrice.bind (cut5 mnt mxt)).map incomeLabel ∧
        r.creditScore = (r.quantity.bind (cut5 mnq mxq)).map creditLabel ∧
        r.ageGroup ∈ ageCategories ∧
        ∃ w ∈ raws, w.recency = some r.recency ∧ w.churn = r.churn := by
  obtain ⟨maxR, mnt, mxt, mnq, mxq, hmax, h300, hcid, hmnt, hmxt, hmnq, hmxq, ht⟩ :=
    load_data_shape h
  subst ht
  refine ⟨mnt, mxt, mnq, mxq, ?_, ?_, ?_, ?_, ?_⟩
  · rw [tpMinOf_map]; exact hmnt
  · rw [tpMaxOf_map]; exact hmxt
  · rw [qMinOf_map]; exact hmnq
  · rw [qMaxOf_map]; exact hmxq
  · intro r hr
    obtain ⟨x, hx, rfl⟩ := List.mem_map.mp hr
    obtain ⟨p, hp, hxa⟩ := List.mem_filterMap.mp hx
    obtain ⟨a, ha, hpa⟩ := Option.map_eq_some'.mp hxa
    obtain ⟨w, hw, hwp⟩ := List.mem_filterMap.mp hp
    obtain ⟨v, hv, hvp⟩ := Option.map_eq_some'.mp hwp
    refine ⟨rfl, rfl, rfl, rfl, ?_, ?_⟩
    · subst hpa
      exact ageGroupOf_mem ha
    · refine ⟨w, hw, ?_, ?_⟩
      · subst hpa; subst hvp; simpa [normalizeRow] using hv
      · subst hpa; subst hvp; simp [normalizeRow]

/-- Characterization of `pd.cut(x, bins=5)`: when the column is not constant,
every value between the column minimum and maximum lands in a bucket `k < 5`,
and bucket `k` lies between the equal-width edges
`mn + k*(mx-mn)/5` and `mn + (k+1)*(mx-mn)/5` of the span `[mn, mx]`. -/
theorem cut5_bounds {mn mx v : ℚ} (hne : mn ≠ mx) (h1 : mn ≤ v) (h2 : v ≤ mx) :
    ∃ k : Fin 5, cut5 mn mx v = some k.val ∧
      mn + (k.val : ℚ) * ((mx - mn) / 5) ≤ v ∧
      v ≤ mn + ((k.val : ℚ) + 1) * ((mx - mn) / 5) := by
  have hlt : mn < mx := lt_of_le_of_ne (le_trans h1 h2) hne
  have hadj : 0 < (mx - mn) / 1000 := by
    apply div_pos (by linarith) (by norm_num)
  have e5 : mn + 5 * ((mx - mn) / 5) = mx := by ring
  rw [cut5, if_neg hne]
  simp only [cutBuckets]
  split_ifs with hb0 hb1 hb2 hb3 hb4
  · exact ⟨⟨0, by norm_num⟩, rfl, by push_cast; linarith [hb0.2], by push_cast; linarith [hb0.2]⟩
  · exact ⟨⟨1, by norm_num⟩, rfl, by push_cast; linarith [hb1.1, hb1.2], by push_cast; linarith [hb1.2]⟩
  · exact ⟨⟨2, by norm_num⟩, rfl, by push_cast; linarith [hb2.1, hb2.2], by push_cast; linarith [hb2.2]⟩
  · exact ⟨⟨3, by norm_num⟩, rfl, by push_cast; linarith [hb3.1, hb3.2], by push_cast; linarith [hb3.2]⟩
  · exact ⟨⟨4, by norm_num⟩, rfl, by push_cast; linarith [hb4.1, hb4.2], by push_cast; linarith [hb4.2]⟩
  · exfalso
    push_neg at hb0 hb1 hb2 hb3 hb4
    have t0 := hb0 (by linarith)
    have t1 := hb1 (by linarith)
    have t2 := hb2 (by linarith)
    have t3 := hb3 (by linarith)
    have t4 := hb4 (by linarith)
    linarith

/-! ### Claim theorems -/

/-- C2: `predicted_churn_rate` (app.py lines 59-60) equals
100 × predictedHighRiskCount / count on the concrete scenario table with
Predicted_Churn = [1,1,0,0] (giving 50), but on an empty table the
unguarded division `predicted_high_risk / total_clients` is a 0/0 and
yields NaN (`none`), not the 0 the claim requires. -/
theorem c2_churn_rate_eval :
    load_data scenarioRaws = .ok scenarioTable ∧
    predicted_churn_rate scenarioTable = some 50 ∧
    total_clients ([] : List NormRow) = 0 ∧
    predicted_churn_rate ([] : List NormRow) = none := by
  refine ⟨by with_unfolding_all rfl, by with_unfolding_all decide, rfl,
          by with_unfolding_all decide⟩

/-- C9: when some row's CustomerID fails integer coercion,
`df['CustomerID'].astype(int)` (app.py line 29) raises, so `load_data`
signals a malformed-record error and produces no table at all — in
particular no row is ever silently dropped over a bad CustomerID. -/
theorem c9_malformed_id_aborts (raws : List RawRow)
    (hbad : ∃ w ∈ raws, w.customerID = none) :
    load_data raws = .error "MalformedRecord: CustomerID failed integer coercion" ∧
    ∀ t, load_data raws ≠ .ok t := by
  obtain ⟨w, hw, hwid⟩ := hbad
  have hcond : raws.any (fun w => w.customerID = none) = true :=
    List.any_eq_true.mpr ⟨w, hw, by simp [hwid]⟩
  constructor
  · unfold load_data
    rw [if_pos hcond]
  · intro t ht
    unfold load_data at ht
    rw [if_pos hcond] at ht
    exact Except.noConfusion ht

/-- Closed instance of C9 at a concrete input containing a row whose
CustomerID failed coercion. -/
theorem c9_malformed_id_aborts_instance :
    load_data badIdRaws = .error "MalformedRecord: CustomerID failed integer coercion" ∧
    ∀ t, load_data badIdRaws ≠ .ok t :=
  c9_malformed_id_aborts badIdRaws ⟨mkRaw none (some 20) (some 2) (some 310) 1 0,
    by with_unfolding_all decide, rfl⟩

theorem genderOf_one : genderOf 1 = some "Male" := by
  unfold genderOf
  simp

theorem genderOf_zero : genderOf 0 = some "Female" := by
  unfold genderOf
  norm_num

theorem riskOf_one : riskOf 1 = some "High Risk" := by
  unfold riskOf
  simp

theorem riskOf_zero : riskOf 0 = some "Low Risk" := by
  unfold riskOf
  norm_num

/-- C8: in every loaded table, Gender is the direct proxy of Churn
(1 → Male, 0 → Female, app.py line 33) and Risk_Category the direct
proxy of Predicted_Churn (1 → High Risk, 0 → Low Risk, line 47). -/
theorem c8_proxy_labels (raws : List RawRow) (t : List NormRow)
    (h : load_data raws = .ok t) :
    ∀ r ∈ t,
      (r.churn = 1 → r.gender = some "Male") ∧
      (r.churn = 0 → r.gender = some "Female") ∧
      (r.predictedChurn = 1 → r.riskCategory = some "High Risk") ∧
      (r.predictedChurn = 0 → r.riskCategory = some "Low Risk") := by
  obtain ⟨mnt, mxt, mnq, mxq, _, _, _, _, hrows⟩ := load_data_rows h
  intro r hr
  obtain ⟨hg, hk, _, _, _, _⟩ := hrows r hr
  refine ⟨?_, ?_, ?_, ?_⟩
  · intro hc; rw [hg, hc, genderOf_one]
  · intro hc; rw [hg, hc, genderOf_zero]
  · intro hc; rw [hk, hc, riskOf_one]
  · intro hc; rw [hk, hc, riskOf_zero]

/-- Closed instance of C8 on the concrete scenario table. -/
theorem c8_proxy_labels_instance :
    load_data scenarioRaws = .ok scenarioTable ∧
    ∀ r ∈ scenarioTable,
      (r.churn = 1 → r.gender = some "Male") ∧
      (r.churn = 0 → r.gender = some "Female") ∧
      (r.predictedChurn = 1 → r.riskCategory = some "High Risk") ∧
      (r.predictedChurn = 0 → r.riskCategory = some "Low Risk") :=
  ⟨by with_unfolding_all rfl,
   c8_proxy_labels scenarioRaws scenarioTable (by with_unfolding_all rfl)⟩

theorem mem_crosstabColumnsOf {t : List NormRow} {g : String} :
    g ∈ crosstabColumnsOf t ↔ ∃ r ∈ t, r.gender = some g := by
  unfold crosstabColumnsOf
  rw [List.mem_dedup, List.mem_filterMap]

/-- C4: the Gender columns of the Age_Group × Gender crosstab, after the
reorder of app.py lines 117-123, show Female before Male whenever both
genders occur, and only the occurring gender when exactly one occurs. -/
theorem c4_gender_column_order (t : List NormRow) :
    ((∃ r ∈ t, r.gender = some "Female") ∧ (∃ r ∈ t, r.gender = some "Male") →
      age_gender_columns t = ["Female", "Male"]) ∧
    ((∃ r ∈ t, r.gender = some "Female") ∧ ¬(∃ r ∈ t, r.gender = some "Male") →
      age_gender_columns t = ["Female"]) ∧
    ((∃ r ∈ t, r.gender = some "Male") ∧ ¬(∃ r ∈ t, r.gender = some "Female") →
      age_gender_columns t = ["Male"]) := by
  refine ⟨?_, ?_, ?_⟩
  · rintro ⟨hf, hm⟩
    unfold age_gender_columns
    rw [if_pos ⟨mem_crosstabColumnsOf.mpr hf, mem_crosstabColumnsOf.mpr hm⟩]
  · rintro ⟨hf, hm⟩
    unfold age_gender_columns
    rw [if_neg (fun hc => hm (mem_crosstabColumnsOf.mp hc.2)),
        if_pos (mem_crosstabColumnsOf.mpr hf)]
  · rintro ⟨hm, hf⟩
    unfold age_gender_columns
    rw [if_neg (fun hc => hf (mem_crosstabColumnsOf.mp hc.1)),
        if_neg (fun hc => hf (mem_crosstabColumnsOf.mp hc)),
        if_pos (mem_crosstabColumnsOf.mpr hm)]

/-- Closed instance of C4: the scenario table holds both genders and its
crosstab columns come out Female, Male. -/
theorem c4_gender_column_order_instance :
    age_gender_columns scenarioTable = ["Female", "Male"] :=
  (c4_gender_column_order scenarioTable).1
    ⟨by with_unfolding_all decide, by with_unfolding_all decide⟩

theorem gender_isSome_of_valid {raws : List RawRow} {t : List NormRow}
    (h : load_data raws = .ok t) (hv : ∀ r ∈ t, r.churn = 0 ∨ r.churn = 1) :
    ∀ r ∈ t, r.gender.isSome = true := by
  obtain ⟨mnt, mxt, mnq, mxq, _, _, _, _, hrows⟩ := load_data_rows h
  intro r hr
  obtain ⟨hg, _, _, _, _, _⟩ := hrows r hr
  rcases hv r hr with hc | hc
  · rw [hg, hc, genderOf_zero]; rfl
  · rw [hg, hc, genderOf_one]; rfl

/-- C6: over a loaded table all of whose Churn flags are 0/1, the per-cell
counts of `pd.crosstab(df['Age_Group'], df['Gender'])` (app.py line 116)
sum to the row count of the table the crosstab was computed over. -/
theorem c6_crosstab_total (raws : List RawRow) (t : List NormRow)
    (h : load_data raws = .ok t) (hv : ∀ r ∈ t, r.churn = 0 ∨ r.churn = 1) :
    crosstabTotal t = total_clients t := by
  have hval : crosstabValid t = t :=
    List.filter_eq_self.mpr (gender_isSome_of_valid h hv)
  unfold crosstabTotal crosstabKeys crosstabCount total_clients
  rw [hval]
  exact sum_counts_eq_length crosstabKey _ t (List.nodup_dedup _)
    (fun x hx => List.mem_dedup.mpr (List.mem_map_of_mem _ hx))

/-- Closed instance of C6 on the concrete scenario table. -/
theorem c6_crosstab_total_instance :
    crosstabTotal scenarioTable = total_clients scenarioTable :=
  c6_crosstab_total scenarioRaws scenarioTable (by with_unfolding_all rfl)
    (by with_unfolding_all decide)

/-- C7: over a loaded table all of whose Churn flags are 0/1, the Gender
proxy totally partitions the rows, so `male_count + female_count`
(app.py lines 55-56) equals `total_clients` (line 54). -/
theorem c7_gender_partition (raws : List RawRow) (t : List NormRow)
    (h : load_data raws = .ok t) (hv : ∀ r ∈ t, r.churn = 0 ∨ r.churn = 1) :
    male_count t + female_count t = total_clients t := by
  obtain ⟨mnt, mxt, mnq, mxq, _, _, _, _, hrows⟩ := load_data_rows h
  unfold male_count female_count total_clients
  have hsplit := length_filter_split (fun r => r.gender = some "Male") t
  have hcongr : t.filter (fun r => !(decide (r.gender = some "Male"))) =
      t.filter (fun r => r.gender = some "Female") := by
    apply List.filter_congr
    intro r hr
    obtain ⟨hg, _, _, _, _, _⟩ := hrows r hr
    rcases hv r hr with hc | hc
    · rw [hg, hc, genderOf_zero]; simp
    · rw [hg, hc, genderOf_one]; simp
  rw [hcongr] at hsplit
  exact hsplit

/-- Closed instance of C7 on the concrete scenario table. -/
theorem c7_gender_partition_instance :
    male_count scenarioTable + female_count scenarioTable = total_clients scenarioTable :=
  c7_gender_partition scenarioRaws scenarioTable (by with_unfolding_all rfl)
    (by with_unfolding_all decide)

/-- C3 counterexample: on the loaded scenario table the Age_Group "51-60"
has zero members, yet `df.groupby('Age_Group')['Predicted_Churn'].mean()*100`
(app.py line 152) — a groupby over a categorical column, which lists every
category of the dtype — still carries an entry for it, holding NaN
(`none`), so the empty group is present with a NaN placeholder rather than
absent. -/
theorem c3_empty_group_present :
    load_data scenarioRaws = .ok scenarioTable ∧
    (scenarioTable.filter (fun r => r.ageGroup = "51-60")).length = 0 ∧
    ("51-60", (none : Option ℚ)) ∈ churn_by_age scenarioTable := by
  refine ⟨by with_unfolding_all rfl, by with_unfolding_all decide,
          by with_unfolding_all decide⟩

/-- C3 (amended): for each grouping category with at least one member the
group entry carries 100 × mean of the Predicted_Churn flag over that
group; a category with zero members is still present in the result, with
an undefined (NaN) value, for both the Age_Group and the Income_Group
groupings. -/
theorem c3_group_rates (t : List NormRow) :
    (∀ a ∈ ageCategories,
      (0 < (t.filter (fun r => r.ageGroup = a)).length →
        (a, some ((((t.filter (fun r => r.ageGroup = a)).map
            (fun r => r.predictedChurn)).sum /
          ((t.filter (fun r => r.ageGroup = a)).length : ℚ)) * 100)) ∈
            churn_by_age t) ∧
      ((t.filter (fun r => r.ageGroup = a)).length = 0 →
        (a, (none : Option ℚ)) ∈ churn_by_age t)) ∧
    (∀ c ∈ incomeCategories,
      (0 < (t.filter (fun r => r.incomeGroup = some c)).length →
        (c, some ((((t.filter (fun r => r.incomeGroup = some c)).map
            (fun r => r.predictedChurn)).sum /
          ((t.filter (fun r => r.incomeGroup = some c)).length : ℚ)) * 100)) ∈
            churn_by_income t) ∧
      ((t.filter (fun r => r.incomeGroup = some c)).length = 0 →
        (c, (none : Option ℚ)) ∈ churn_by_income t)) := by
  constructor
  · intro a ha
    constructor
    · intro hpos
      refine List.mem_map.mpr ⟨a, ha, ?_⟩
      unfold groupRate
      rw [if_neg (by simp only [List.length_map]; omega)]
      simp [List.length_map]
    · intro hzero
      refine List.mem_map.mpr ⟨a, ha, ?_⟩
      unfold groupRate
      rw [if_pos (by simp only [List.length_map]; omega)]
  · intro c hc
    constructor
    · intro hpos
      refine List.mem_map.mpr ⟨c, hc, ?_⟩
      unfold groupRate
      rw [if_neg (by simp only [List.length_map]; omega)]
      simp [List.length_map]
    · intro hzero
      refine List.mem_map.mpr ⟨c, hc, ?_⟩
      unfold groupRate
      rw [if_pos (by simp only [List.length_map]; omega)]

/-- Closed instance of the amended C3: the ">71" group of the scenario
table has one member, so the groupby entry carries its group mean. -/
theorem c3_group_rates_instance :
    (">71", some ((((scenarioTable.filter (fun r => r.ageGroup = ">71")).map
        (fun r => r.predictedChurn)).sum /
      ((scenarioTable.filter (fun r => r.ageGroup = ">71")).length : ℚ)) * 100)) ∈
        churn_by_age scenarioTable :=
  ((c3_group_rates scenarioTable).1 ">71" (by decide)).1 (by with_unfolding_all decide)

theorem option_counts_split {α : Type} [DecidableEq α] (key : NormRow → Option α)
    (cats : List α) (t : List NormRow) (hnd : cats.Nodup)
    (hcov : ∀ r ∈ t, ∀ c, key r = some c → c ∈ cats) :
    (cats.map (fun c => (t.filter (fun r => key r = some c)).length)).sum +
      (t.filter (fun r => key r = none)).length = t.length := by
  have hnodup : (cats.map some ++ [none] : List (Option α)).Nodup := by
    refine List.Nodup.append (hnd.map (Option.some_injective _))
      (List.nodup_singleton none) ?_
    intro x hx hx2
    simp only [List.mem_singleton] at hx2
    subst hx2
    simp at hx
  have hcov2 : ∀ r ∈ t, key r ∈ (cats.map some ++ [none] : List (Option α)) := by
    intro r hr
    cases hk : key r with
    | none => simp
    | some c =>
      have hmem := hcov r hr c hk
      simp only [List.mem_append, List.mem_map, List.mem_singleton]
      exact Or.inl ⟨c, hmem, rfl⟩
  have h := sum_counts_eq_length key (cats.map some ++ [none]) t hnodup hcov2
  rw [List.map_append, List.sum_append, List.map_map] at h
  simpa using h

/-- C10: every loaded row carries an assigned (non-missing) Age_Group from a
present Recency, while a row whose TotalPrice (resp. Quantity) failed
numeric coercion is retained with a missing Income_Group (resp.
Credit_Score); such rows count towards `total_clients` but fall outside
every bucket of the `value_counts` distributions (app.py lines 134, 143). -/
theorem c10_missing_labels (raws : List RawRow) (t : List NormRow)
    (h : load_data raws = .ok t) :
    (∀ r ∈ t, r.ageGroup ∈ ageCategories ∧ ∃ w ∈ raws, w.recency = some r.recency) ∧
    (∀ r ∈ t, r.totalPrice = none → r.incomeGroup = none) ∧
    (∀ r ∈ t, r.quantity = none → r.creditScore = none) ∧
    income_vals_total t + (t.filter (fun r => r.incomeGroup = none)).length =
      total_clients t ∧
    credit_vals_total t + (t.filter (fun r => r.creditScore = none)).length =
      total_clients t := by
  obtain ⟨mnt, mxt, mnq, mxq, _, _, _, _, hrows⟩ := load_data_rows h
  refine ⟨?_, ?_, ?_, ?_, ?_⟩
  · intro r hr
    obtain ⟨_, _, _, _, hage, w, hw, hrec, _⟩ := hrows r hr
    exact ⟨hage, w, hw, hrec⟩
  · intro r hr htp
    obtain ⟨_, _, hi, _, _, _⟩ := hrows r hr
    rw [hi, htp]
    rfl
  · intro r hr hq
    obtain ⟨_, _, _, hcr, _, _⟩ := hrows r hr
    rw [hcr, hq]
    rfl
  · have hcov : ∀ r ∈ t, ∀ c, r.incomeGroup = some c → c ∈ incomeCategories := by
      intro r hr c hc
      obtain ⟨_, _, hi, _, _, _⟩ := hrows r hr
      rw [hi] at hc
      obtain ⟨k, _, hkc⟩ := Option.map_eq_some'.mp hc
      exact hkc ▸ incomeLabel_mem k
    have hsplit := option_counts_split (fun r => r.incomeGroup) incomeCategories t
      (by decide) hcov
    simp only [income_vals_total, income_vals, List.map_map, total_clients]
    simpa using hsplit
  · have hcov : ∀ r ∈ t, ∀ c, r.creditScore = some c → c ∈ creditCategories := by
      intro r hr c hc
      obtain ⟨_, _, _, hcr, _, _⟩ := hrows r hr
      rw [hcr] at hc
      obtain ⟨k, _, hkc⟩ := Option.map_eq_some'.mp hc
      exact hkc ▸ creditLabel_mem k
    have hsplit := option_counts_split (fun r => r.creditScore) creditCategories t
      (by decide) hcov
    simp only [credit_vals_total, credit_vals, List.map_map, total_clients]
    simpa using hsplit

/-- Closed instance of C10 on a concrete table one of whose rows has NaN
TotalPrice and Quantity. -/
theorem c10_missing_labels_instance :
    (∀ r ∈ gapTable, r.ageGroup ∈ ageCategories ∧
      ∃ w ∈ gapRaws, w.recency = some r.recency) ∧
    (∀ r ∈ gapTable, r.totalPrice = none → r.incomeGroup = none) ∧
    (∀ r ∈ gapTable, r.quantity = none → r.creditScore = none) ∧
    income_vals_total gapTable +
      (gapTable.filter (fun r => r.incomeGroup = none)).length =
        total_clients gapTable ∧
    credit_vals_total gapTable +
      (gapTable.filter (fun r => r.creditScore = none)).length =
        total_clients gapTable :=
  c10_missing_labels gapRaws gapTable (by with_unfolding_all rfl)

/-- C5: in a loaded table whose TotalPrice (resp. Quantity) column is not
constant, Income_Group (resp. Credit_Score) places each present value in one
of 5 equal-width bins whose edges `mn + k*(mx-mn)/5` span exactly
`[mn, mx]`, where `mn`/`mx` are the minimum/maximum of the column over the
FULL loaded table; the same rule (`cut5`, i.e. `pd.cut(..., bins=5)`)
serves both columns, the labels are frozen in the rows at load time, and
the characterization persists over the rows surviving any filter predicate
with the full-table edges, never re-derived from the filtered data. -/
theorem c5_equal_width_bins (raws : List RawRow) (t : List NormRow)
    (mnt mxt mnq mxq : ℚ) (h : load_data raws = .ok t)
    (hmnt : tpMinOf t = some mnt) (hmxt : tpMaxOf t = some mxt)
    (hmnq : qMinOf t = some mnq) (hmxq : qMaxOf t = some mxq)
    (hnet : mnt ≠ mxt) (hneq : mnq ≠ mxq) :
    ∀ p : NormRow → Bool, ∀ r ∈ t.filter p,
      (∀ v, r.totalPrice = some v →
        ∃ k : Fin 5, r.incomeGroup = some (incomeLabel k.val) ∧
          mnt + (k.val : ℚ) * ((mxt - mnt) / 5) ≤ v ∧
          v ≤ mnt + ((k.val : ℚ) + 1) * ((mxt - mnt) / 5)) ∧
      (∀ v, r.quantity = some v →
        ∃ k : Fin 5, r.creditScore = some (creditLabel k.val) ∧
          mnq + (k.val : ℚ) * ((mxq - mnq) / 5) ≤ v ∧
          v ≤ mnq + ((k.val : ℚ) + 1) * ((mxq - mnq) / 5)) := by
  obtain ⟨mnt2, mxt2, mnq2, mxq2, hmnt2, hmxt2, hmnq2, hmxq2, hrows⟩ := load_data_rows h
  rw [hmnt2] at hmnt
  rw [hmxt2] at hmxt
  rw [hmnq2] at hmnq
  rw [hmxq2] at hmxq
  injection hmnt with hmnt
  injection hmxt with hmxt
  injection hmnq with hmnq
  injection hmxq with hmxq
  subst hmnt hmxt hmnq hmxq
  intro p r hrp
  have hrt : r ∈ t := (List.mem_filter.mp hrp).1
  obtain ⟨_, _, hi, hcr, _, _⟩ := hrows r hrt
  constructor
  · intro v hv
    have hvmem : v ∈ t.filterMap (fun r => r.totalPrice) :=
      List.mem_filterMap.mpr ⟨r, hrt, hv⟩
    have hlo := listMin_le hmnt2 v hvmem
    have hhi := listMax_ge hmxt2 v hvmem
    obtain ⟨k, hk, hb1, hb2⟩ := cut5_bounds hnet hlo hhi
    refine ⟨k, ?_, hb1, hb2⟩
    rw [hi, hv]
    simp [hk]
  · intro v hv
    have hvmem : v ∈ t.filterMap (fun r => r.quantity) :=
      List.mem_filterMap.mpr ⟨r, hrt, hv⟩
    have hlo := listMin_le hmnq2 v hvmem
    have hhi := listMax_ge hmxq2 v hvmem
    obtain ⟨k, hk, hb1, hb2⟩ := cut5_bounds hneq hlo hhi
    refine ⟨k, ?_, hb1, hb2⟩
    rw [hcr, hv]
    simp [hk]

/-- Closed instance of C5 on the scenario table (TotalPrice spans `[10, 40]`,
Quantity spans `[1, 4]`). -/
theorem c5_equal_width_bins_instance :
    load_data scenarioRaws = .ok scenarioTable ∧
    tpMinOf scenarioTable = some 10 ∧ tpMaxOf scenarioTable = some 40 ∧
    qMinOf scenarioTable = some 1 ∧ qMaxOf scenarioTable = some 4 ∧
    ∀ p : NormRow → Bool, ∀ r ∈ scenarioTable.filter p,
      (∀ v, r.totalPrice = some v →
        ∃ k : Fin 5, r.incomeGroup = some (incomeLabel k.val) ∧
          10 + (k.val : ℚ) * ((40 - 10) / 5) ≤ v ∧
          v ≤ 10 + ((k.val : ℚ) + 1) * ((40 - 10) / 5)) ∧
      (∀ v, r.quantity = some v →
        ∃ k : Fin 5, r.creditScore = some (creditLabel k.val) ∧
          1 + (k.val : ℚ) * ((4 - 1) / 5) ≤ v ∧
          v ≤ 1 + ((k.val : ℚ) + 1) * ((4 - 1) / 5)) :=
  ⟨by with_unfolding_all rfl, by with_unfolding_all rfl, by with_unfolding_all rfl,
   by with_unfolding_all rfl, by with_unfolding_all rfl,
   c5_equal_width_bins scenarioRaws scenarioTable 10 40 1 4
    (by with_unfolding_all rfl)
    (by with_unfolding_all rfl) (by with_unfolding_all rfl)
    (by with_unfolding_all rfl) (by with_unfolding_all rfl)
    (by norm_num) (by norm_num)⟩

/-- C1 counterexample: `pd.cut` with default `right=True` makes the buckets
right-inclusive/left-exclusive, not left-inclusive/right-exclusive as the
claim states.  At Recency = 60 (with max(Recency) = 310) the code assigns
"18-30", while the claim's left-inclusive right-exclusive reading of the
same edges puts 60 into [60, 120), i.e. "31-40". -/
theorem c1_age_edge_counterexample :
    load_data edgeRaws = .ok edgeTable ∧
    (∃ r ∈ edgeTable, r.recency = 60 ∧ r.ageGroup = "18-30") ∧
    ageGroupSpecWorded 310 60 = some "31-40" ∧
    ageGroupOf 310 60 ≠ ageGroupSpecWorded 310 60 := by
  refine ⟨by with_unfolding_all rfl, by with_unfolding_all decide,
          by with_unfolding_all decide, by with_unfolding_all decide⟩

/-- C1 (amended): Age_Group is bucketed from Recency over the fixed edges
0, 60, 120, 180, 240, 300, max(Recency)+1 with intervals that are
LEFT-EXCLUSIVE and RIGHT-INCLUSIVE, the first bucket additionally
including 0; on the spec's concrete scenario (Recency `[30, 90, 150, 310]`,
max 310) the labels are 18-30, 31-40, 41-50, >71 as claimed. -/
theorem c1_age_bins_amended :
    (∀ maxR v : ℚ,
      (ageGroupOf maxR v = some "18-30" ↔ 0 ≤ v ∧ v ≤ 60) ∧
      (ageGroupOf maxR v = some "31-40" ↔ 60 < v ∧ v ≤ 120) ∧
      (ageGroupOf maxR v = some "41-50" ↔ 120 < v ∧ v ≤ 180) ∧
      (ageGroupOf maxR v = some "51-60" ↔ 180 < v ∧ v ≤ 240) ∧
      (ageGroupOf maxR v = some "61-70" ↔ 240 < v ∧ v ≤ 300) ∧
      (ageGroupOf maxR v = some ">71" ↔ 300 < v ∧ v ≤ maxR + 1)) ∧
    (load_data scenarioRaws = .ok scenarioTable ∧
      scenarioTable.map (fun r => r.ageGroup) = ["18-30", "31-40", "41-50", ">71"]) := by
  constructor
  · intro maxR v
    unfold ageGroupOf
    split_ifs with g1 g2 g3 g4 g5 g6
    · obtain ⟨a1, a2⟩ := g1
      refine ⟨iff_of_true rfl ⟨a1, a2⟩,
        iff_of_false (by simp) (by rintro ⟨hA, hB⟩; linarith),
        iff_of_false (by simp) (by rintro ⟨hA, hB⟩; linarith),
        iff_of_false (by simp) (by rintro ⟨hA, hB⟩; linarith),
        iff_of_false (by simp) (by rintro ⟨hA, hB⟩; linarith),
        iff_of_false (by simp) (by rintro ⟨hA, hB⟩; linarith)⟩
    · obtain ⟨a1, a2⟩ := g2
      refine ⟨iff_of_false (by simp) g1,
        iff_of_true rfl ⟨a1, a2⟩,
        iff_of_false (by simp) (by rintro ⟨hA, hB⟩; linarith),
        iff_of_false (by simp) (by rintro ⟨hA, hB⟩; linarith),
        iff_of_false (by simp) (by rintro ⟨hA, hB⟩; linarith),
        iff_of_false (by simp) (by rintro ⟨hA, hB⟩; linarith)⟩
    · obtain ⟨a1, a2⟩ := g3
      refine ⟨iff_of_false (by simp) g1,
        iff_of_false (by simp) g2,
        iff_of_true rfl ⟨a1, a2⟩,
        iff_of_false (by simp) (by rintro ⟨hA, hB⟩; linarith),
        iff_of_false (by simp) (by rintro ⟨hA, hB⟩; linarith),
        iff_of_false (by simp) (by rintro ⟨hA, hB⟩; linarith)⟩
    · obtain ⟨a1, a2⟩ := g4
      refine ⟨iff_of_false (by simp) g1,
        iff_of_false (by simp) g2,
        iff_of_false (by simp) g3,
        iff_of_true rfl ⟨a1, a2⟩,
        iff_of_false (by simp) (by rintro ⟨hA, hB⟩; linarith),
        iff_of_false (by simp) (by rintro ⟨hA, hB⟩; linarith)⟩
    · obtain ⟨a1, a2⟩ := g5
      refine ⟨iff_of_false (by simp) g1,
        iff_of_false (by simp) g2,
        iff_of_false (by simp) g3,
        iff_of_false (by simp) g4,
        iff_of_true rfl ⟨a1, a2⟩,
        iff_of_false (by simp) (by rintro ⟨hA, hB⟩; linarith)⟩
    · obtain ⟨a1, a2⟩ := g6
      refine ⟨iff_of_false (by simp) g1,
        iff_of_false (by simp) g2,
        iff_of_false (by simp) g3,
        iff_of_false (by simp) g4,
        iff_of_false (by simp) g5,
        iff_of_true rfl ⟨a1, a2⟩⟩
    · refine ⟨iff_of_false (by simp) g1,
        iff_of_false (by simp) g2,
        iff_of_false (by simp) g3,
        iff_of_false (by simp) g4,
        iff_of_false (by simp) g5,
        iff_of_false (by simp) g6⟩
  · exact ⟨by with_unfolding_all rfl, by with_unfolding_all decide⟩
